import Mathlib

/-!
Shallow embedding of the st0x REST API gateway (a Rust program) and proofs
about its specification claims.

The embedding mirrors the repository sources file by file:
* `src/error.rs` — the typed error taxonomy and its HTTP rendering;
* `src/fairings/request_logger.rs` — the request-id extraction policy;
* `src/routes/admin.rs` — the registry hot-swap handler;
* `src/raindex/config.rs` — the worker-thread bridge into the engine;
* `src/routes/trades/mod.rs` and `src/routes/trades/get_by_tx.rs` — trades by tx;
* `src/routes/swap/mod.rs` and `src/routes/swap/quote.rs` — swap quote and calldata;
* `src/routes/order/cancel.rs`, `src/routes/order/get_order.rs` and the stale
  single-file variant `src/routes/order.rs` — order detail and cancellation.

Conventions: on-chain addresses, hashes and calldata are opaque byte blobs and
are modelled as `String`; engine decimal floats (`rain_math_float::Float`) are
modelled as `ℚ` with the fallible external formatter and parser passed in as
function parameters; every fallible Rust call returns `Except`/`Option` here.
Statefulness (the registry cell, the settings table) is explicit state passing.
-/

namespace St0x

/-- On-chain addresses are opaque 20-byte identifiers; modelled as strings. -/
abbrev Address := String

/-- Calldata and other byte blobs; the empty byte string is the empty string. -/
abbrev Calldata := String

/- ===================== src/error.rs ===================== -/

/-- The API error value. The declaration in `src/error.rs` (lines 22-32) has
exactly four constructors: BadRequest, Unauthorized, NotFound, Internal. The
route layer, however, also constructs `ApiError::NotYetIndexed` (at
`src/routes/trades/mod.rs` line 53) and the tests in
`src/routes/trades/get_by_tx.rs` (lines 318, 334) match on that variant, so the
enum as the rest of the crate uses it carries a fifth kind. `notYetIndexed` is
included here so that the route modules can be embedded; the mismatch with the
declaration in `error.rs` is exactly what claim C1 is about. -/
inductive ApiError where
  | badRequest (msg : String)
  | unauthorized (msg : String)
  | notFound (msg : String)
  | notYetIndexed (msg : String)
  | internal (msg : String)
  deriving DecidableEq, Repr

/-- A rendered error response: HTTP status plus the code and message strings
that fill the JSON envelope. -/
structure ErrorRendering where
  status : Nat
  code : String
  message : String
  deriving DecidableEq, Repr

/-- Mirror of `ApiErrorDetail` in `src/error.rs`. -/
structure ApiErrorDetail where
  code : String
  message : String
  deriving DecidableEq, Repr

/-- Mirror of `ApiErrorResponse` in `src/error.rs`: the JSON body is an object
with a single field `error` holding the code/message pair. -/
structure ApiErrorResponse where
  error : ApiErrorDetail
  deriving DecidableEq, Repr

/-- The `Responder` impl in `src/error.rs` (lines 34-53): a match with exactly
four arms. The `notYetIndexed` kind has no arm in `error.rs`, so rendering it
through that impl is modelled as `none`. -/
def errorRsRespond : ApiError → Option ErrorRendering
  | .badRequest m => some ⟨400, "BAD_REQUEST", m⟩
  | .unauthorized m => some ⟨401, "UNAUTHORIZED", m⟩
  | .notFound m => some ⟨404, "NOT_FOUND", m⟩
  | .internal m => some ⟨500, "INTERNAL_ERROR", m⟩
  | .notYetIndexed _ => none

/-- `src/error.rs` lines 44-49: the JSON body built from a rendering. -/
def renderBody (r : ErrorRendering) : ApiErrorResponse :=
  ⟨⟨r.code, r.message⟩⟩

/-- One representative value per constructor of `ApiError`; the renderer
ignores the message, so these representatives exhaust the renderable codes. -/
def apiErrorRepresentatives : List ApiError :=
  [ApiError.badRequest "", ApiError.unauthorized "", ApiError.notFound "",
   ApiError.notYetIndexed "", ApiError.internal ""]

/-- All codes the responder in `src/error.rs` can put on the wire. -/
def renderableCodes : List String :=
  (apiErrorRepresentatives.filterMap errorRsRespond).map ErrorRendering.code

/- ===================== src/fairings/request_logger.rs ===================== -/

/-- The Unicode White_Space property, as used by `str::trim` in Rust. -/
def rustIsWhitespace (c : Char) : Bool :=
  let n := c.toNat
  (0x09 ≤ n && n ≤ 0x0D) || n = 0x20 || n = 0x85 || n = 0xA0 || n = 0x1680 ||
    (0x2000 ≤ n && n ≤ 0x200A) || n = 0x2028 || n = 0x2029 || n = 0x202F ||
    n = 0x205F || n = 0x3000

/-- The Unicode Cc category, as used by `char::is_control` in Rust. -/
def rustIsControl (c : Char) : Bool :=
  let n := c.toNat
  n ≤ 0x1F || (0x7F ≤ n && n ≤ 0x9F)

/-- `str::trim`: drop leading and trailing whitespace characters. -/
def rustTrim (s : List Char) : List Char :=
  ((s.dropWhile rustIsWhitespace).reverse.dropWhile rustIsWhitespace).reverse

/-- UTF-8 byte length of a string, as `str::len` measures it in Rust. -/
def utf8Len (s : List Char) : Nat :=
  (s.map Char.utf8Size).sum

/-- The acceptance test applied by `extract_request_id`
(`src/fairings/request_logger.rs` lines 31-34): non-empty, at most 128 bytes,
ASCII, and free of control characters. In the source this test is applied to
the trimmed header value. -/
def validRequestId (t : List Char) : Bool :=
  !t.isEmpty && utf8Len t ≤ 128 && t.all (fun c => c.toNat ≤ 0x7F) &&
    !t.any rustIsControl

/-- `extract_request_id` (`src/fairings/request_logger.rs` lines 27-42). The
header value, when present, is trimmed; the trimmed value is echoed when it
passes the acceptance test, otherwise a fresh v4 UUID is generated. The
freshly generated `Uuid::new_v4().to_string()` enters as the parameter
`fresh`. -/
def extractRequestId (header : Option (List Char)) (fresh : List Char) :
    List Char :=
  match header with
  | some v =>
    let trimmed := rustTrim v
    if validRequestId trimmed then trimmed else fresh
  | none => fresh

/-- The response-egress side (`RequestLogger::on_response`, lines 82-98): the
X-Request-Id response header is set to the request-id stored by `on_request`,
which is exactly the value `extract_request_id` produced. -/
def responseRequestId (header : Option (List Char)) (fresh : List Char) :
    List Char :=
  extractRequestId header fresh

/- ===================== src/routes/admin.rs ===================== -/

/-- Mirror of `RegistryResponse` in `src/routes/registry.rs`. -/
structure RegistryResponse where
  registry_url : String
  deriving DecidableEq, Repr

/-- `put_registry` (`src/routes/admin.rs` lines 33-78), with the two fallible
external effects entering as the outcomes the handler would observe: `load` is
the result of `RaindexProvider::load(&req.registry_url)` and `persist` the
result of `settings::set_setting(pool, "registry_url", ..)`. The provider type
is abstract. The function returns the handler result paired with the contents
of the shared registry cell after the request; the write guard is held from
before the persist until after the overwrite, so the overwrite happens exactly
when the match reaches the final arm. -/
def put_registry {P : Type} (url : String) (load : Except String P)
    (persist : Except String Unit) (cell : P) :
    Except ApiError RegistryResponse × P :=
  if url.isEmpty then
    (Except.error (ApiError.badRequest "registry_url must not be empty"), cell)
  else
    match load with
    | .error e =>
      (Except.error (ApiError.badRequest ("failed to load registry: " ++ e)),
       cell)
    | .ok newProvider =>
      match persist with
      | .error _ =>
        (Except.error (ApiError.internal "failed to persist setting"), cell)
      | .ok _ => (Except.ok ⟨url⟩, newProvider)

/- ===================== src/raindex/config.rs ===================== -/

/-- Mirror of the private `WorkerError` enum in `src/raindex/config.rs`
(lines 5-8). Runtime-init failures carry a `std::io::Error`, modelled as a
string. -/
inductive WorkerError where
  | runtimeInit (err : String)
  | api (err : String)
  deriving DecidableEq, Repr

/-- Mirror of `RaindexProviderError` (`src/raindex/config.rs` lines 119-131). -/
inductive RaindexProviderError where
  | registryLoad (msg : String)
  | registryRuntimeInit (err : String)
  | clientInit (msg : String)
  | clientRuntimeInit (err : String)
  | workerPanicked
  deriving DecidableEq, Repr

/-- What the worker thread of `run_with_registry` (lines 45-76) puts on the
one-shot channel. `rtBuild` is the outcome of building the current-thread
executor; `closureResult` is `none` when the closure panics, in which case the
worker thread ends without sending (the sender is dropped). -/
def workerSendRegistry {T : Type} (rtBuild : Except String Unit)
    (closureResult : Option T) : Option (Except WorkerError T) :=
  match rtBuild with
  | .error e => some (.error (.runtimeInit e))
  | .ok _ =>
    match closureResult with
    | none => none
    | some v => some (.ok v)

/-- What the worker thread of `run_with_client` (lines 78-116) puts on the
one-shot channel: after building the executor it first derives the engine
client from the registry (`registry.get_raindex_client()`), and only then runs
the closure. -/
def workerSendClient {T C : Type} (rtBuild : Except String Unit)
    (getClient : Except String C) (f : C → T) (closurePanics : Bool) :
    Option (Except WorkerError T) :=
  match rtBuild with
  | .error e => some (.error (.runtimeInit e))
  | .ok _ =>
    match getClient with
    | .error e => some (.error (.api e))
    | .ok c => if closurePanics then none else some (.ok (f c))

/-- The receiving side of `run_with_registry` (lines 70-75): a missing message
means the worker finished without sending and becomes `WorkerPanicked`;
otherwise the worker error is translated. -/
def bridgeReceiveRegistry {T : Type} (msg : Option (Except WorkerError T)) :
    Except RaindexProviderError T :=
  match msg with
  | none => .error .workerPanicked
  | some (.ok v) => .ok v
  | some (.error (.runtimeInit e)) => .error (.registryRuntimeInit e)
  | some (.error (.api e)) => .error (.registryLoad e)

/-- The receiving side of `run_with_client` (lines 110-115). -/
def bridgeReceiveClient {T : Type} (msg : Option (Except WorkerError T)) :
    Except RaindexProviderError T :=
  match msg with
  | none => .error .workerPanicked
  | some (.ok v) => .ok v
  | some (.error (.runtimeInit e)) => .error (.clientRuntimeInit e)
  | some (.error (.api e)) => .error (.clientInit e)

/-- `run_with_registry` end to end: one worker spawn, one one-shot handoff. -/
def run_with_registry {T : Type} (rtBuild : Except String Unit)
    (closureResult : Option T) : Except RaindexProviderError T :=
  bridgeReceiveRegistry (workerSendRegistry rtBuild closureResult)

/-- `run_with_client` end to end. -/
def run_with_client {T C : Type} (rtBuild : Except String Unit)
    (getClient : Except String C) (f : C → T) (closurePanics : Bool) :
    Except RaindexProviderError T :=
  bridgeReceiveClient (workerSendClient rtBuild getClient f closurePanics)

/-- The set of outcomes claim C3 allows: the value of the closure, a
runtime-init error, or WorkerPanicked. Written as a boolean test so that the
refutation is a closed computation. -/
def c3ListedOutcome {T : Type} [DecidableEq T] (closureValue : T)
    (r : Except RaindexProviderError T) : Bool :=
  match r with
  | .ok v => v = closureValue
  | .error .workerPanicked => true
  | .error (.registryRuntimeInit _) => true
  | .error (.clientRuntimeInit _) => true
  | .error (.registryLoad _) => false
  | .error (.clientInit _) => false

/- ===================== the engine error enum ===================== -/

/-- The variants of the external `rain_orderbook_common::RaindexError` that the
gateway inspects, plus catch-alls. `src/routes/swap/mod.rs` (lines 127-146)
matches on the first seven below; `src/routes/trades/mod.rs` (line 47) matches
on `tradesIndexingTimeout`; `other` stands for every remaining engine
variant. -/
inductive RaindexError where
  | noLiquidity
  | insufficientLiquidity (details : String)
  | sameTokenPair
  | nonPositiveAmount
  | negativePriceCap
  | fromHexError (msg : String)
  | floatError (msg : String)
  | tradesIndexingTimeout (txHash : String) (attempts : Nat)
  | other (msg : String)
  deriving DecidableEq, Repr

/-- Whether an engine error is the indexing-timeout variant. -/
def isIndexingTimeout : RaindexError → Bool
  | .tradesIndexingTimeout _ _ => true
  | _ => false

/-- `map_raindex_error` (`src/routes/swap/mod.rs` lines 127-146). The Display
rendering of the external error enum enters as `toStr`; the wildcard arm
produces a fixed generic message that does not depend on the error. -/
def map_raindex_error (toStr : RaindexError → String) (e : RaindexError) :
    ApiError :=
  match e with
  | .noLiquidity | .insufficientLiquidity _ =>
    ApiError.notFound "no liquidity found for this pair"
  | .sameTokenPair | .nonPositiveAmount | .negativePriceCap
  | .fromHexError _ | .floatError _ => ApiError.badRequest (toStr e)
  | _ => ApiError.internal "failed to generate calldata"

/- ===================== engine data shapes ===================== -/

/-- Token metadata as exposed by the engine (`token()` on a vault): address,
optional symbol, decimals. -/
structure TokenInfo where
  address : Address
  symbol : Option String
  decimals : Nat
  deriving DecidableEq, Repr

/-- An order vault (`inputs_list().items()` / `outputs_list().items()`):
token, vault id, and the engine-formatted balance string. -/
structure Vault where
  token : TokenInfo
  vault_id : String
  formatted_balance : String
  deriving DecidableEq, Repr

/-- Parsed order metadata; the gateway only looks at the selected-deployment
string of the DotrainGuiStateV1 entry. -/
inductive RMeta where
  | dotrainGuiStateV1 (selected_deployment : String)
  | otherMeta
  deriving DecidableEq, Repr

/-- An engine order (`RaindexOrder`), with the fields the gateway reads. -/
structure ROrder where
  order_hash : String
  owner : Address
  orderbook : Address
  inputs : List Vault
  outputs : List Vault
  parsed_meta : List RMeta
  timestamp_added : Int
  deriving DecidableEq, Repr

/-- An on-chain transaction as attached to a trade. -/
structure RTransaction where
  id : String
  sender : Address
  block_number : Int
  timestamp : Int
  deriving DecidableEq, Repr

/-- A vault balance change on a trade: the engine float amount and its
preformatted string. -/
structure VaultBalanceChange where
  token : TokenInfo
  amount : ℚ
  formatted_amount : String
  deriving DecidableEq, Repr

/-- An engine trade (`RaindexTrade`), with the fields the gateway reads. -/
structure RTrade where
  id : String
  order_hash : String
  transaction : RTransaction
  input_vault_balance_change : VaultBalanceChange
  output_vault_balance_change : VaultBalanceChange
  deriving DecidableEq, Repr

/-- Quote data carried by an engine order quote; the gateway reads only the
formatted ratio. -/
structure RQuoteData where
  formatted_ratio : String
  deriving DecidableEq, Repr

/-- An engine order quote (`RaindexOrderQuote`): the data is absent when the
quote did not produce usable numbers. -/
structure RQuote where
  data : Option RQuoteData
  deriving DecidableEq, Repr

/- ===================== src/routes/trades ===================== -/

/-- The per-orderbook loop body of `RaindexTradesDataSource::get_trades_by_tx`
(`src/routes/trades/mod.rs` lines 37-62): accumulate trades orderbook by
orderbook; the first indexing-timeout error aborts with NotYetIndexed, any
other engine error aborts with Internal. -/
def tradesByTxLoop :
    List (Except RaindexError (List RTrade)) → List RTrade →
    Except ApiError (List RTrade)
  | [], acc => .ok acc
  | .ok ts :: rest, acc => tradesByTxLoop rest (acc ++ ts)
  | .error (.tradesIndexingTimeout h n) :: _, _ =>
    .error (ApiError.notYetIndexed
      ("transaction " ++ h ++ " not yet indexed after " ++ toString n ++
        " attempts"))
  | .error _ :: _, _ => .error (ApiError.internal "failed to query trades")

/-- `get_trades_by_tx` of the trades data source (`src/routes/trades/mod.rs`
lines 31-64). `orderbooks` is the outcome of `get_all_orderbooks()` where each
configured orderbook is represented by the outcome of querying it for the tx
hash. -/
def get_trades_by_tx
    (orderbooks : Except String (List (Except RaindexError (List RTrade)))) :
    Except ApiError (List RTrade) :=
  match orderbooks with
  | .error _ => .error (ApiError.internal "failed to get orderbooks")
  | .ok obs => tradesByTxLoop obs []

/-- Wire shape `TradeRequest` of the trades-by-tx response. -/
structure TradeRequestWire where
  input_token : Address
  output_token : Address
  maximum_input : String
  maximum_io_ratio : String
  deriving DecidableEq, Repr

/-- Wire shape `TradeResult` of the trades-by-tx response. -/
structure TradeResultWire where
  input_amount : String
  output_amount : String
  actual_io_ratio : String
  deriving DecidableEq, Repr

/-- Wire shape `TradeByTxEntry`. -/
structure TradeByTxEntry where
  order_hash : String
  order_owner : Address
  request : TradeRequestWire
  result : TradeResultWire
  deriving DecidableEq, Repr

/-- Wire shape `TradesTotals`. -/
structure TradesTotals where
  total_input_amount : String
  total_output_amount : String
  average_io_ratio : String
  deriving DecidableEq, Repr

/-- Wire shape `TradesByTxResponse`. -/
structure TradesByTxResponse where
  tx_hash : String
  block_number : Nat
  timestamp : Nat
  sender : Address
  trades : List TradeByTxEntry
  totals : TradesTotals
  deriving DecidableEq, Repr

/-- `u64::try_from` on an engine integer: Internal-style failure outside the
u64 range (the bound is 2 to the 64th, written as a literal). -/
def toU64 (x : Int) : Option Nat :=
  if 0 ≤ x ∧ x < 18446744073709551616 then some x.toNat else none

/-- Order-hash de-duplication of `process_get_trades_by_tx`
(`src/routes/trades/get_by_tx.rs` lines 82-96): keep the first occurrence of
each hash, in trade order. -/
def dedupFirst (seen : List String) : List String → List String
  | [] => []
  | h :: t =>
    if h ∈ seen then dedupFirst seen t else h :: dedupFirst (h :: seen) t

/-- The concurrent order lookup and cache build (lines 98-116): one lookup per
unique hash, first failure wins, cache maps the hash to the first returned
order if any. -/
def buildOrderCache (orderLookup : String → Except ApiError (List ROrder)) :
    List String → Except ApiError (List (String × Option ROrder))
  | [] => .ok []
  | h :: t =>
    match orderLookup h with
    | .error e => .error e
    | .ok orders =>
      match buildOrderCache orderLookup t with
      | .error e => .error e
      | .ok rest => .ok ((h, orders.head?) :: rest)

/-- Cache lookup: `order_cache.get(hash).and_then(as_ref)`. -/
def cacheOwner (cache : List (String × Option ROrder)) (hash : String) :
    Option Address :=
  match cache.lookup hash with
  | some (some o) => some o.owner
  | _ => none

/-- Division of engine floats: the external decimal float fails on a zero
denominator; modelled as `none` exactly there. -/
def floatDiv (num den : ℚ) : Option ℚ :=
  if den = 0 then none else some (num / den)

/-- One iteration of the per-trade loop of `process_get_trades_by_tx`
(lines 128-190): resolve the owner from the cache, compute the per-trade
actual io ratio as input divided by the negated output amount, and build the
wire entry. `fmt` is the external float formatter. -/
def mkTradeEntry (fmt : ℚ → Option String)
    (cache : List (String × Option ROrder)) (t : RTrade) :
    Except ApiError TradeByTxEntry :=
  match cacheOwner cache t.order_hash with
  | none => .error (ApiError.internal "order not found for trade")
  | some owner =>
    let inVc := t.input_vault_balance_change
    let outVc := t.output_vault_balance_change
    match floatDiv inVc.amount (0 - outVc.amount) with
    | none => .error (ApiError.internal "float arithmetic error")
    | some ratio =>
      match fmt ratio with
      | none => .error (ApiError.internal "float format error")
      | some ratioStr =>
        .ok { order_hash := t.order_hash
              order_owner := owner
              request := { input_token := inVc.token.address
                           output_token := outVc.token.address
                           maximum_input := inVc.formatted_amount
                           maximum_io_ratio := ratioStr }
              result := { input_amount := inVc.formatted_amount
                          output_amount := outVc.formatted_amount
                          actual_io_ratio := ratioStr } }

/-- The per-trade loop over the whole trade list. -/
def mkTradeEntries (fmt : ℚ → Option String)
    (cache : List (String × Option ROrder)) :
    List RTrade → Except ApiError (List TradeByTxEntry)
  | [] => .ok []
  | t :: ts =>
    match mkTradeEntry fmt cache t with
    | .error e => .error e
    | .ok entry =>
      match mkTradeEntries fmt cache ts with
      | .error e => .error e
      | .ok rest => .ok (entry :: rest)

/-- `process_get_trades_by_tx` (`src/routes/trades/get_by_tx.rs` lines
58-231). `orderbooks` feeds the trades fetch, `orderLookup` the owner
resolution, `fmt` the external float formatter. The running totals are the
folds of the engine amounts, and the average io ratio divides the total input
by the negated total output, exactly as the source does. -/
def process_get_trades_by_tx (fmt : ℚ → Option String)
    (orderbooks : Except String (List (Except RaindexError (List RTrade))))
    (orderLookup : String → Except ApiError (List ROrder)) (txHash : String) :
    Except ApiError TradesByTxResponse :=
  match get_trades_by_tx orderbooks with
  | .error e => .error e
  | .ok trades =>
    match trades with
    | [] => .error (ApiError.notFound "transaction has no associated trades")
    | t0 :: _ =>
      match toU64 t0.transaction.block_number with
      | none => .error (ApiError.internal "block number overflow")
      | some blockNumber =>
        match toU64 t0.transaction.timestamp with
        | none => .error (ApiError.internal "timestamp overflow")
        | some timestamp =>
          let uniqueHashes := dedupFirst [] (trades.map RTrade.order_hash)
          match buildOrderCache orderLookup uniqueHashes with
          | .error e => .error e
          | .ok cache =>
            match mkTradeEntries fmt cache trades with
            | .error e => .error e
            | .ok entries =>
              let totalInput :=
                (trades.map (fun t => t.input_vault_balance_change.amount)).sum
              let totalOutput :=
                (trades.map
                  (fun t => t.output_vault_balance_change.amount)).sum
              match floatDiv totalInput (0 - totalOutput) with
              | none => .error (ApiError.internal "float arithmetic error")
              | some avg =>
                match fmt avg with
                | none => .error (ApiError.internal "float format error")
                | some avgStr =>
                  match fmt totalInput with
                  | none => .error (ApiError.internal "float format error")
                  | some totalInStr =>
                    match fmt totalOutput with
                    | none => .error (ApiError.internal "float format error")
                    | some totalOutStr =>
                      .ok { tx_hash := txHash
                            block_number := blockNumber
                            timestamp := timestamp
                            sender := t0.transaction.sender
                            trades := entries
                            totals := { total_input_amount := totalInStr
                                        total_output_amount := totalOutStr
                                        average_io_ratio := avgStr } }

/- ===================== src/routes/swap ===================== -/

/-- Mirror of `SwapQuoteRequest`. -/
structure SwapQuoteRequest where
  input_token : Address
  output_token : Address
  output_amount : String
  deriving DecidableEq, Repr

/-- Mirror of `SwapQuoteResponse`. -/
structure SwapQuoteResponse where
  input_token : Address
  output_token : Address
  output_amount : String
  estimated_input : String
  estimated_io_ratio : String
  deriving DecidableEq, Repr

/-- A take candidate: a walkable unit of liquidity, with its maximum output
and its io ratio (input per unit of output). -/
structure TakeOrderCandidate where
  max_output : ℚ
  ratio : ℚ
  deriving DecidableEq, Repr

/-- One leg of a simulated buy. -/
structure SimLeg where
  input : ℚ
  output : ℚ
  deriving DecidableEq, Repr

/-- The result of a simulated buy: the legs and the two totals. -/
structure BuySimulation where
  legs : List SimLeg
  total_input : ℚ
  total_output : ℚ
  deriving DecidableEq, Repr

/-- Insertion of a candidate into a ratio-sorted list (best ratio first). -/
def insertByRatio (c : TakeOrderCandidate) :
    List TakeOrderCandidate → List TakeOrderCandidate
  | [] => [c]
  | d :: t =>
    if c.ratio ≤ d.ratio then c :: d :: t else d :: insertByRatio c t

/-- Sort candidates by best (lowest) ratio first. -/
def sortByRatio : List TakeOrderCandidate → List TakeOrderCandidate
  | [] => []
  | c :: t => insertByRatio c (sortByRatio t)

/-- The greedy walk: consume candidates until the requested output is met or
the candidates run out; each consumed candidate contributes a leg whose output
is capped by the candidate maximum and whose input is output times ratio. -/
def greedyLegs : List TakeOrderCandidate → ℚ → List SimLeg
  | [], _ => []
  | c :: rest, remaining =>
    if remaining ≤ 0 then []
    else
      let out := min remaining c.max_output
      if out ≤ 0 then greedyLegs rest remaining
      else
        { input := out * c.ratio, output := out } ::
          greedyLegs rest (remaining - out)

/-- Modelled from the spec: `simulate_buy_over_candidates` lives in the
external engine crate `rain_orderbook_common::take_orders` and is out of the
repository; per the spec it simulates a buy-up-to-amount walk over candidates
sorted by best ratio first, greedily consuming candidates until the requested
output is met or candidates are exhausted, with `total_input` the sum of leg
inputs and `total_output` the sum of leg outputs. The price cap passed by the
gateway is the maximum positive float and never binds, so it is dropped
here. -/
def simulate_buy_over_candidates (cands : List TakeOrderCandidate)
    (buyTarget : ℚ) : BuySimulation :=
  let legs := greedyLegs (sortByRatio cands) buyTarget
  { legs := legs
    total_input := (legs.map SimLeg.input).sum
    total_output := (legs.map SimLeg.output).sum }

/-- The swap data source observed by `process_swap_quote`: the outcome of the
active-order query for the pair and the outcome of candidate building. The
order type is abstract because the quote path only tests emptiness. -/
structure SwapDS (O : Type) where
  ordersResult : Except ApiError (List O)
  candidatesResult : Except ApiError (List TakeOrderCandidate)

/-- `process_swap_quote` (`src/routes/swap/quote.rs` lines 52-115). `parse`
and `fmt` are the external decimal-float parser and formatter; a parse failure
of the requested output amount is a BadRequest, downstream float failures are
Internal in source order (ratio first, then the two formats). -/
def process_swap_quote {O : Type} (parse : String → Option ℚ)
    (fmt : ℚ → Option String) (ds : SwapDS O) (req : SwapQuoteRequest) :
    Except ApiError SwapQuoteResponse :=
  match ds.ordersResult with
  | .error e => .error e
  | .ok orders =>
    if orders.isEmpty then
      .error (ApiError.notFound "no liquidity found for this pair")
    else
      match ds.candidatesResult with
      | .error e => .error e
      | .ok cands =>
        if cands.isEmpty then
          .error (ApiError.notFound "no valid quotes available")
        else
          match parse req.output_amount with
          | none => .error (ApiError.badRequest "invalid output_amount")
          | some buyTarget =>
            let sim := simulate_buy_over_candidates cands buyTarget
            if sim.legs.isEmpty then
              .error (ApiError.notFound "no valid quotes available")
            else
              match floatDiv sim.total_input sim.total_output with
              | none => .error (ApiError.internal "failed to compute ratio")
              | some blendedRatio =>
                match fmt sim.total_input with
                | none =>
                  .error (ApiError.internal "failed to format estimated input")
                | some formattedInput =>
                  match fmt blendedRatio with
                  | none => .error (ApiError.internal "failed to format ratio")
                  | some formattedRatio =>
                    .ok { input_token := req.input_token
                          output_token := req.output_token
                          output_amount := req.output_amount
                          estimated_input := formattedInput
                          estimated_io_ratio := formattedRatio }

/-- Mirror of `Approval` in `src/types/common.rs` as used by the calldata
path. -/
structure Approval where
  token : Address
  spender : Address
  amount : String
  symbol : String
  approval_data : Calldata
  deriving DecidableEq, Repr

/-- Mirror of `SwapCalldataResponse`. -/
structure SwapCalldataResponse where
  to_ : Address
  data : Calldata
  value : Nat
  estimated_input : String
  approvals : List Approval
  deriving DecidableEq, Repr

/-- The approval stub the engine may return from
`get_take_orders_calldata`. -/
structure ApprovalInfo where
  spender : Address
  token : Address
  formatted_amount : String
  calldata : Calldata
  deriving DecidableEq, Repr

/-- The ready execution payload the engine may return. -/
structure TakeOrdersInfo where
  orderbook : Address
  calldata : Calldata
  expected_sell : ℚ
  deriving DecidableEq, Repr

/-- The engine result of `get_take_orders_calldata`: at most one of the two
shapes is populated. -/
structure TakeOrdersCalldataResult where
  approval_info : Option ApprovalInfo
  take_orders_info : Option TakeOrdersInfo
  deriving DecidableEq, Repr

/-- `RaindexSwapDataSource::get_calldata` (`src/routes/swap/mod.rs` lines
82-125). An engine failure goes through `map_raindex_error`; an approval stub
maps to a response with empty calldata and a single approval whose spender is
also the `to` field; a ready payload maps to the take-orders calldata with no
approvals; a result carrying neither is Internal. -/
def get_calldata (toStr : RaindexError → String) (fmt : ℚ → Option String)
    (engineResult : Except RaindexError TakeOrdersCalldataResult) :
    Except ApiError SwapCalldataResponse :=
  match engineResult with
  | .error e => .error (map_raindex_error toStr e)
  | .ok result =>
    match result.approval_info with
    | some ai =>
      .ok { to_ := ai.spender
            data := ""
            value := 0
            estimated_input := ai.formatted_amount
            approvals := [{ token := ai.token
                            spender := ai.spender
                            amount := ai.formatted_amount
                            symbol := ""
                            approval_data := ai.calldata }] }
    | none =>
      match result.take_orders_info with
      | some ti =>
        match fmt ti.expected_sell with
        | none => .error (ApiError.internal "failed to format expected sell")
        | some expectedSell =>
          .ok { to_ := ti.orderbook
                data := ti.calldata
                value := 0
                estimated_input := expectedSell
                approvals := [] }
      | none => .error (ApiError.internal "unexpected calldata result state")

/- ===================== src/routes/order ===================== -/

/-- Wire token reference. -/
structure TokenRef where
  address : Address
  symbol : String
  decimals : Nat
  deriving DecidableEq, Repr

/-- Order classification. -/
inductive OrderType where
  | dca
  | solver
  deriving DecidableEq, Repr

/-- Wire shape `OrderDetailsInfo`. -/
structure OrderDetailsInfo where
  type_ : OrderType
  io_ratio : String
  deriving DecidableEq, Repr

/-- Wire shape `OrderTradeEntry`. -/
structure OrderTradeEntry where
  id : String
  tx_hash : String
  input_amount : String
  output_amount : String
  timestamp : Nat
  sender : Address
  deriving DecidableEq, Repr

/-- Wire shape `OrderDetail`. -/
structure OrderDetail where
  order_hash : String
  owner : Address
  order_details : OrderDetailsInfo
  input_token : TokenRef
  output_token : TokenRef
  input_vault_id : String
  output_vault_id : String
  input_vault_balance : String
  output_vault_balance : String
  io_ratio : String
  created_at : Nat
  orderbook_id : Address
  trades : List OrderTradeEntry
  deriving DecidableEq, Repr

/-- `determine_order_type` (identical in `src/routes/order/get_order.rs` lines
74-87 and `src/routes/order.rs` lines 226-239): Dca when any parsed
DotrainGuiStateV1 meta has a selected deployment containing the substring
"dca" after lowercasing, else Solver. Lowercasing is modelled per character
(the deployment names are ASCII). -/
def determine_order_type (order : ROrder) : OrderType :=
  if order.parsed_meta.any (fun m =>
      match m with
      | .dotrainGuiStateV1 sel =>
        decide ("dca".toList <:+: (sel.toList.map Char.toLower))
      | .otherMeta => false) then
    OrderType.dca
  else
    OrderType.solver

/-- `map_trade` (`src/routes/order/get_order.rs` lines 145-156): timestamps
outside u64 become 0 via `unwrap_or(0)`. -/
def map_trade (t : RTrade) : OrderTradeEntry :=
  { id := t.id
    tx_hash := t.transaction.id
    input_amount := t.input_vault_balance_change.formatted_amount
    output_amount := t.output_vault_balance_change.formatted_amount
    timestamp := (toU64 t.transaction.timestamp).getD 0
    sender := t.transaction.sender }

/-- `build_order_detail` (identical in `src/routes/order/get_order.rs` lines
89-143 and `src/routes/order.rs` lines 241-...): the first input and first
output vault are required, missing either is Internal. -/
def build_order_detail (order : ROrder) (orderType : OrderType)
    (ioRatio : String) (trades : List RTrade) : Except ApiError OrderDetail :=
  match order.inputs with
  | [] => .error (ApiError.internal "order has no input vaults")
  | input :: _ =>
    match order.outputs with
    | [] => .error (ApiError.internal "order has no output vaults")
    | output :: _ =>
      .ok { order_hash := order.order_hash
            owner := order.owner
            order_details := { type_ := orderType, io_ratio := ioRatio }
            input_token := { address := input.token.address
                             symbol := input.token.symbol.getD ""
                             decimals := input.token.decimals }
            output_token := { address := output.token.address
                              symbol := output.token.symbol.getD ""
                              decimals := output.token.decimals }
            input_vault_id := input.vault_id
            output_vault_id := output.vault_id
            input_vault_balance := input.formatted_balance
            output_vault_balance := output.formatted_balance
            io_ratio := ioRatio
            created_at := (toU64 order.timestamp_added).getD 0
            orderbook_id := order.orderbook
            trades := trades.map map_trade }

/-- The engine outcomes an order data source observes: the order query by
hash, the quote fetch for the order, the trade fetch for the order, and the
remove-calldata request. Both get-order variants and the cancel path are
driven by these same four outcomes (`OrderDataSource` in
`src/routes/order/mod.rs` lines 15-24 and `src/routes/order.rs` lines
19-24). -/
structure OrderDS where
  ordersByHash : Except ApiError (List ROrder)
  quotesResult : Except ApiError (List RQuote)
  tradesResult : Except ApiError (List RTrade)
  removeCalldata : Except ApiError Calldata

/-- The representative quote datum: the formatted ratio of the first quote
with data, if any, ignoring a failed fetch. Shared shape of both get-order
variants. -/
def quoteDataOf (r : Except ApiError (List RQuote)) : Option String :=
  match r with
  | .ok quotes => (quotes.head?.bind RQuote.data).map RQuoteData.formatted_ratio
  | .error _ => none

/-- `process_get_order` of the module variant
(`src/routes/order/get_order.rs` lines 17-32): quote and trade fetches are
soft — `unwrap_or_default()` turns a failure into an empty list — and a
missing quote datum falls back to the literal dash. -/
def process_get_order_module (ds : OrderDS) : Except ApiError OrderDetail :=
  match ds.ordersByHash with
  | .error e => .error e
  | .ok orders =>
    match orders with
    | [] => .error (ApiError.notFound "order not found")
    | order :: _ =>
      let quotes :=
        match ds.quotesResult with
        | .ok q => q
        | .error _ => []
      let ioRatio :=
        (((quotes.head?.bind RQuote.data).map RQuoteData.formatted_ratio).getD
          "-")
      let trades :=
        match ds.tradesResult with
        | .ok t => t
        | .error _ => []
      build_order_detail order (determine_order_type order) ioRatio trades

/-- `RaindexOrderDataSource::get_order_io_ratio` of the single-file variant
(`src/routes/order.rs` lines 46-58): a failed quote fetch logs and returns the
empty string, and `unwrap_or_default()` also yields the empty string when no
quote datum exists. -/
def get_order_io_ratio (quotesResult : Except ApiError (List RQuote)) :
    String :=
  match quotesResult with
  | .ok quotes =>
    (((quotes.head?.bind RQuote.data).map RQuoteData.formatted_ratio).getD "")
  | .error _ => ""

/-- `RaindexOrderDataSource::get_order_trades` of the single-file variant
(`src/routes/order.rs` lines 60-68): empty on failure. -/
def get_order_trades_single (tradesResult : Except ApiError (List RTrade)) :
    List RTrade :=
  match tradesResult with
  | .ok t => t
  | .error _ => []

/-- `process_get_order` of the single-file variant (`src/routes/order.rs`
lines 71-81): same flow, but the soft fallbacks live in the data source and
the missing-quote fallback is the empty string, not the dash. -/
def process_get_order_single (ds : OrderDS) : Except ApiError OrderDetail :=
  match ds.ordersByHash with
  | .error e => .error e
  | .ok orders =>
    match orders with
    | [] => .error (ApiError.notFound "order not found")
    | order :: _ =>
      let ioRatio := get_order_io_ratio ds.quotesResult
      let trades := get_order_trades_single ds.tradesResult
      build_order_detail order (determine_order_type order) ioRatio trades

/- ===================== src/routes/order/cancel.rs ===================== -/

/-- Wire shape `CancelTransaction`. -/
structure CancelTransaction where
  to_ : Address
  data : Calldata
  value : Nat
  deriving DecidableEq, Repr

/-- Wire shape `TokenReturn`. -/
structure TokenReturn where
  token : Address
  symbol : String
  amount : String
  deriving DecidableEq, Repr

/-- Wire shape `CancelSummary`. The withdraw counter is a `u32` in the
source, incremented once per selected vault; as a count of list elements it is
modelled as `Nat`. -/
structure CancelSummary where
  vaults_to_withdraw : Nat
  tokens_returned : List TokenReturn
  deriving DecidableEq, Repr

/-- Wire shape `CancelOrderResponse`. -/
structure CancelOrderResponse where
  transactions : List CancelTransaction
  summary : CancelSummary
  deriving DecidableEq, Repr

/-- The per-vault test of the cancel loop (`src/routes/order/cancel.rs` lines
78-80): parse the formatted balance with the platform float parser — zero on
parse failure — and keep the vault when the value is positive. The `f64`
parser enters as the parameter `parseNum`. -/
def vaultBalancePositive (parseNum : String → Option ℚ) (v : Vault) : Bool :=
  decide (0 < ((parseNum v.formatted_balance).getD 0))

/-- The `TokenReturn` built for a selected vault (lines 82-87). -/
def toTokenReturn (v : Vault) : TokenReturn :=
  { token := v.token.address
    symbol := v.token.symbol.getD ""
    amount := v.formatted_balance }

/-- `process_cancel_order` (`src/routes/order/cancel.rs` lines 53-100): 404
when the hash resolves to no order; otherwise a single transaction to the
orderbook with the remove calldata and zero value, and one `TokenReturn` per
positive-balance vault walking inputs first, then outputs. -/
def process_cancel_order (parseNum : String → Option ℚ) (ds : OrderDS) :
    Except ApiError CancelOrderResponse :=
  match ds.ordersByHash with
  | .error e => .error e
  | .ok orders =>
    match orders with
    | [] => .error (ApiError.notFound "order not found")
    | order :: _ =>
      match ds.removeCalldata with
      | .error e => .error e
      | .ok calldata =>
        let vaults := order.inputs ++ order.outputs
        let selected := vaults.filter (vaultBalancePositive parseNum)
        .ok { transactions := [{ to_ := order.orderbook
                                 data := calldata
                                 value := 0 }]
              summary := { vaults_to_withdraw := selected.length
                           tokens_returned := selected.map toTokenReturn } }

/-- Decidable equality for `Except`, used only to evaluate the embedded
functions at concrete inputs. -/
instance exceptDecEq {e a : Type} [DecidableEq e] [DecidableEq a] :
    DecidableEq (Except e a) := fun x y =>
  match x, y with
  | .ok u, .ok v =>
    if h : u = v then isTrue (congrArg Except.ok h)
    else isFalse (fun hc => h (by cases hc; rfl))
  | .error u, .error v =>
    if h : u = v then isTrue (congrArg Except.error h)
    else isFalse (fun hc => h (by cases hc; rfl))
  | .ok _, .error _ => isFalse (fun hc => by cases hc)
  | .error _, .ok _ => isFalse (fun hc => by cases hc)

/- ===================== sample values ===================== -/

/-- A sample token for concrete evaluations. -/
def sampleTokenA : TokenInfo :=
  { address := "0x833589fcd6edb6e08f4c7c32d4f71b54bda02913"
    symbol := some "USDC"
    decimals := 6 }

/-- A second sample token. -/
def sampleTokenB : TokenInfo :=
  { address := "0x4200000000000000000000000000000000000006"
    symbol := some "WETH"
    decimals := 18 }

/-- A sample input vault with balance 1.000000, matching the cancel-order
test fixture of the repository. -/
def sampleVaultIn : Vault :=
  { token := sampleTokenA
    vault_id := "1"
    formatted_balance := "1.000000" }

/-- A sample output vault with balance 0.500000000000000000. -/
def sampleVaultOut : Vault :=
  { token := sampleTokenB
    vault_id := "2"
    formatted_balance := "0.500000000000000000" }

/-- A sample order used by concrete evaluations: one input vault and one
output vault. -/
def sampleOrder : ROrder :=
  { order_hash := "0xorderhash1"
    owner := "0xowner1"
    orderbook := "0xd2938e7c9fe3597f78832ce780feb61945c377d7"
    inputs := [sampleVaultIn]
    outputs := [sampleVaultOut]
    parsed_meta := []
    timestamp_added := 1700000000 }

/-- A sample trade referencing `sampleOrder`, with input amount 3 and output
amount -2 in engine float units. -/
def sampleTrade : RTrade :=
  { id := "trade-1"
    order_hash := "0xorderhash1"
    transaction := { id := "0xtxhash1"
                     sender := "0xsender1"
                     block_number := 10
                     timestamp := 20 }
    input_vault_balance_change := { token := sampleTokenA
                                    amount := 3
                                    formatted_amount := "3" }
    output_vault_balance_change := { token := sampleTokenB
                                     amount := -2
                                     formatted_amount := "-2" } }

/- ===================== theorems ===================== -/

/-- Claim C1: the claim states that the API error value has exactly seven
kinds (BadRequest, Unauthorized, Forbidden, NotFound, NotYetIndexed,
TooManyRequests, Internal) each mapped to its documented status/code pair in
the JSON envelope. The enum declared in `src/error.rs` has exactly four
constructors and its responder renders exactly the four codes BAD_REQUEST,
UNAUTHORIZED, NOT_FOUND and INTERNAL_ERROR — there is no arm for
NotYetIndexed (which `src/routes/trades/mod.rs` line 53 nonetheless
constructs, and which the tests in `src/routes/trades/get_by_tx.rs` match on)
and no kind at all for Forbidden or TooManyRequests. This theorem records the
evaluation of the embedded `error.rs` responder: the four declared kinds do
map to their documented pairs with the documented body shape, the renderable
code set has four elements, and the codes NOT_YET_INDEXED, FORBIDDEN and
TOO_MANY_REQUESTS are not renderable; rendering the constructed-but-undeclared
NotYetIndexed value through the `error.rs` responder is impossible. -/
theorem c1_error_taxonomy_at_failing_input (m : String) :
    errorRsRespond (ApiError.badRequest m) = some ⟨400, "BAD_REQUEST", m⟩ ∧
    errorRsRespond (ApiError.unauthorized m) = some ⟨401, "UNAUTHORIZED", m⟩ ∧
    errorRsRespond (ApiError.notFound m) = some ⟨404, "NOT_FOUND", m⟩ ∧
    errorRsRespond (ApiError.internal m) = some ⟨500, "INTERNAL_ERROR", m⟩ ∧
    errorRsRespond (ApiError.notYetIndexed m) = none ∧
    renderableCodes =
      ["BAD_REQUEST", "UNAUTHORIZED", "NOT_FOUND", "INTERNAL_ERROR"] ∧
    renderableCodes.length = 4 ∧
    "NOT_YET_INDEXED" ∉ renderableCodes ∧
    "FORBIDDEN" ∉ renderableCodes ∧
    "TOO_MANY_REQUESTS" ∉ renderableCodes ∧
    (∀ r, renderBody r = ⟨⟨r.code, r.message⟩⟩) :=
  ⟨rfl, rfl, rfl, rfl, rfl, rfl, rfl, by decide, by decide, by decide,
   fun _ => rfl⟩

/-- Claim C2: the registry hot-swap handler. An empty registry URL is a
BadRequest and leaves the cell alone whatever the load or persist outcomes
would have been; a failed load is a BadRequest and leaves the cell alone; a
successful load followed by a failed persist is Internal and leaves the cell
alone; the cell is overwritten exactly when the load and the persist both
succeed, in which case the handler echoes the URL. -/
theorem c2_put_registry_hot_swap {P : Type} (url : String)
    (load : Except String P) (persist : Except String Unit) (cell : P) :
    (url = "" →
      put_registry url load persist cell =
        (Except.error (ApiError.badRequest "registry_url must not be empty"),
         cell)) ∧
    (∀ e, url ≠ "" → load = .error e →
      put_registry url load persist cell =
        (Except.error
          (ApiError.badRequest ("failed to load registry: " ++ e)), cell)) ∧
    (∀ p pe, url ≠ "" → load = .ok p → persist = .error pe →
      put_registry url load persist cell =
        (Except.error (ApiError.internal "failed to persist setting"),
         cell)) ∧
    (∀ p, url ≠ "" → load = .ok p → persist = .ok () →
      put_registry url load persist cell = (Except.ok ⟨url⟩, p)) ∧
    ((put_registry url load persist cell).2 ≠ cell →
      ∃ p, load = .ok p ∧ persist = .ok ()) := by
  refine ⟨?_, ?_, ?_, ?_, ?_⟩
  · intro h
    subst h
    rfl
  · intro e hu hl
    simp [put_registry, String.isEmpty_iff, hu, hl]
  · intro p pe hu hl hp
    simp [put_registry, String.isEmpty_iff, hu, hl, hp]
  · intro p hu hl hp
    simp [put_registry, String.isEmpty_iff, hu, hl, hp]
  · intro hch
    by_cases hu : url.isEmpty
    · exact absurd (by simp [put_registry, hu]) hch
    · match hl : load with
      | .error e => exact absurd (by simp [put_registry, hu, hl]) hch
      | .ok p =>
        match hp : persist with
        | .error pe => exact absurd (by simp [put_registry, hu, hl, hp]) hch
        | .ok _ => exact ⟨p, rfl, rfl⟩

/-- Witness for C2 at concrete inputs: a successful load and persist swap the
cell and echo the URL; a failed persist after a successful load is Internal
and keeps the old provider; an empty URL is a BadRequest and keeps the old
provider. -/
theorem c2_put_registry_hot_swap_witness :
    put_registry "http://r/new.txt" (Except.ok "newP") (Except.ok ()) "oldP" =
      (Except.ok ⟨"http://r/new.txt"⟩, "newP") ∧
    put_registry "http://r/new.txt" (Except.ok "newP")
        (Except.error "db locked") "oldP" =
      (Except.error (ApiError.internal "failed to persist setting"),
       "oldP") ∧
    put_registry "" (Except.ok "newP") (Except.ok ()) "oldP" =
      (Except.error (ApiError.badRequest "registry_url must not be empty"),
       "oldP") ∧
    (∃ p, (Except.ok "newP" : Except String String) = .ok p ∧
      (Except.ok () : Except String Unit) = .ok ()) := by
  refine ⟨?_, ?_, ?_, ?_⟩
  · exact (c2_put_registry_hot_swap "http://r/new.txt" (Except.ok "newP")
      (Except.ok ()) "oldP").2.2.2.1 "newP" (by decide) rfl rfl
  · exact (c2_put_registry_hot_swap "http://r/new.txt" (Except.ok "newP")
      (Except.error "db locked") "oldP").2.2.1 "newP" "db locked" (by decide)
      rfl rfl
  · exact (c2_put_registry_hot_swap "" (Except.ok "newP") (Except.ok ())
      "oldP").1 rfl
  · exact (c2_put_registry_hot_swap "http://r/new.txt" (Except.ok "newP")
      (Except.ok ()) "oldP").2.2.2.2 (by decide)

/-- Counterexample to claim C3 as stated: the claim lists exactly three
possible deliveries for a bridge call — the closure value, a runtime-init
error, or WorkerPanicked. For `run_with_client`, when the executor builds
fine but deriving the engine client from the registry fails, the worker sends
an Api error and the bridge returns `ClientInit`, which is none of the three
listed outcomes even though the worker did send an answer. -/
theorem c3_bridge_counterexample :
    @run_with_client Nat Unit (Except.ok ())
        (Except.error "registry has no client") (fun _ => 7) false =
      Except.error (RaindexProviderError.clientInit "registry has no client") ∧
    c3ListedOutcome 7
      (@run_with_client Nat Unit (Except.ok ())
        (Except.error "registry has no client") (fun _ => 7) false) = false :=
  ⟨rfl, rfl⟩

/-- Claim C3, amended: a bridge call returns exactly one of the closure value,
a runtime-init error when the executor cannot be built, a client-init error
when `run_with_client` cannot derive the engine client from the registry, or
WorkerPanicked — and WorkerPanicked occurs exactly when the worker thread
finishes without sending an answer on the one-shot channel. The case
equations cover every worker behaviour, so the bridge neither retries nor
synthesizes a result. -/
theorem c3_bridge_amended {T C : Type} (e ce : String) (v : T) (f : C → T)
    (c : C) (getClient : Except String C) (closurePanics : Bool)
    (closureResult : Option T) :
    run_with_registry (Except.error e) closureResult =
      Except.error (RaindexProviderError.registryRuntimeInit e) ∧
    run_with_registry (Except.ok ()) (some v) = Except.ok v ∧
    run_with_registry (Except.ok ()) (none : Option T) =
      Except.error RaindexProviderError.workerPanicked ∧
    run_with_client (Except.error e) getClient f closurePanics =
      Except.error (RaindexProviderError.clientRuntimeInit e) ∧
    run_with_client (Except.ok ()) (Except.error ce) f closurePanics =
      Except.error (RaindexProviderError.clientInit ce) ∧
    run_with_client (Except.ok ()) (Except.ok c) f false = Except.ok (f c) ∧
    run_with_client (Except.ok ()) (Except.ok c) f true =
      Except.error RaindexProviderError.workerPanicked ∧
    (∀ msg : Option (Except WorkerError T),
      (bridgeReceiveClient msg =
          Except.error RaindexProviderError.workerPanicked ↔ msg = none) ∧
      (bridgeReceiveRegistry msg =
          Except.error RaindexProviderError.workerPanicked ↔ msg = none)) := by
  refine ⟨rfl, rfl, rfl, rfl, rfl, rfl, rfl, ?_⟩
  intro msg
  constructor
  · constructor
    · intro h
      match msg with
      | none => rfl
      | some (.ok v) => simp [bridgeReceiveClient] at h
      | some (.error (.runtimeInit e)) => simp [bridgeReceiveClient] at h
      | some (.error (.api e)) => simp [bridgeReceiveClient] at h
    · intro h
      subst h
      rfl
  · constructor
    · intro h
      match msg with
      | none => rfl
      | some (.ok v) => simp [bridgeReceiveRegistry] at h
      | some (.error (.runtimeInit e)) => simp [bridgeReceiveRegistry] at h
      | some (.error (.api e)) => simp [bridgeReceiveRegistry] at h
    · intro h
      subst h
      rfl

/-- Counterexample to claim C4 as stated: the header value " a" (leading
space) is non-empty, two bytes long, ASCII, and free of control characters, so
the claim requires the response header to equal " a"; the source trims the
value before echoing and responds with "a". -/
theorem c4_requestid_counterexample :
    validRequestId (" a".toList) = true ∧
    responseRequestId (some (" a".toList))
        ("00000000-0000-4000-8000-000000000000".toList) = "a".toList ∧
    " a".toList ≠ "a".toList := by
  refine ⟨by decide, by decide, by decide⟩

/-- Claim C4, amended: the acceptance test and the echo both apply to the
whitespace-trimmed header value — the response header equals the trimmed
value when that trimmed value is non-empty, at most 128 bytes, ASCII and free
of control characters, and equals the freshly generated v4 UUID otherwise
(also when the header is absent). For values without surrounding whitespace
this coincides with the original claim. -/
theorem c4_requestid_amended (s fresh : List Char) :
    responseRequestId (some s) fresh =
      (if validRequestId (rustTrim s) then rustTrim s else fresh) ∧
    responseRequestId none fresh = fresh ∧
    (rustTrim s = s → validRequestId s = true →
      responseRequestId (some s) fresh = s) := by
  refine ⟨rfl, rfl, ?_⟩
  intro ht hv
  show (if validRequestId (rustTrim s) then rustTrim s else fresh) = s
  rw [ht, hv]
  simp

/-- Witness for C4 at a concrete input: a plain ASCII id without surrounding
whitespace is echoed unchanged. -/
theorem c4_requestid_amended_witness :
    responseRequestId (some ("abc-123".toList)) ("u".toList) =
      "abc-123".toList :=
  (c4_requestid_amended "abc-123".toList "u".toList).2.2 (by decide)
    (by decide)

/-- The orderbook loop accumulates every successfully queried trade list in
order. -/
theorem tradesByTxLoop_append_ok (pre : List (List RTrade))
    (rest : List (Except RaindexError (List RTrade))) (acc : List RTrade) :
    tradesByTxLoop (pre.map Except.ok ++ rest) acc =
      tradesByTxLoop rest (acc ++ pre.flatten) := by
  induction pre generalizing acc with
  | nil => simp
  | cons hd tl ih => simp [tradesByTxLoop, ih]

/-- A non-timeout engine failure aborts the loop with the generic Internal
error. -/
theorem tradesByTxLoop_error (e : RaindexError)
    (rest : List (Except RaindexError (List RTrade))) (acc : List RTrade)
    (he : isIndexingTimeout e = false) :
    tradesByTxLoop (Except.error e :: rest) acc =
      Except.error (ApiError.internal "failed to query trades") := by
  cases e <;> simp_all [tradesByTxLoop, isIndexingTimeout]

/-- Claim C5: trades by tx. The trade lists of the configured orderbooks are
merged in order; the first indexing-timeout report aborts with NotYetIndexed;
a non-timeout engine failure (including the orderbook-configuration fetch
itself) aborts with Internal; an empty merged list is NotFound; and a response
is produced only when the merged list is non-empty. -/
theorem c5_trades_by_tx (fmt : ℚ → Option String)
    (orderLookup : String → Except ApiError (List ROrder)) (txHash : String)
    (pre okLists : List (List RTrade))
    (rest : List (Except RaindexError (List RTrade)))
    (hsh : String) (n : Nat) (e : RaindexError) (s : String) :
    (process_get_trades_by_tx fmt
        (.ok (pre.map Except.ok ++
          .error (RaindexError.tradesIndexingTimeout hsh n) :: rest))
        orderLookup txHash =
      .error (ApiError.notYetIndexed
        ("transaction " ++ hsh ++ " not yet indexed after " ++ toString n ++
          " attempts"))) ∧
    (isIndexingTimeout e = false →
      process_get_trades_by_tx fmt
          (.ok (pre.map Except.ok ++ .error e :: rest)) orderLookup txHash =
        .error (ApiError.internal "failed to query trades")) ∧
    (process_get_trades_by_tx fmt (.error s) orderLookup txHash =
      .error (ApiError.internal "failed to get orderbooks")) ∧
    (okLists.flatten = [] →
      process_get_trades_by_tx fmt (.ok (okLists.map Except.ok)) orderLookup
          txHash =
        .error (ApiError.notFound "transaction has no associated trades")) ∧
    (∀ obs r, process_get_trades_by_tx fmt obs orderLookup txHash = .ok r →
      ∃ t ts, get_trades_by_tx obs = .ok (t :: ts)) := by
  refine ⟨?_, ?_, ?_, ?_, ?_⟩
  · have hg : get_trades_by_tx
        (.ok (pre.map Except.ok ++
          .error (RaindexError.tradesIndexingTimeout hsh n) :: rest)) =
        .error (ApiError.notYetIndexed
          ("transaction " ++ hsh ++ " not yet indexed after " ++ toString n ++
            " attempts")) := by
      simp [get_trades_by_tx, tradesByTxLoop_append_ok, tradesByTxLoop]
    simp [process_get_trades_by_tx, hg]
  · intro he
    have hg : get_trades_by_tx
        (.ok (pre.map Except.ok ++ .error e :: rest)) =
        .error (ApiError.internal "failed to query trades") := by
      simp [get_trades_by_tx, tradesByTxLoop_append_ok,
        tradesByTxLoop_error e rest _ he]
    simp [process_get_trades_by_tx, hg]
  · rfl
  · intro hj
    have hg : get_trades_by_tx (.ok (okLists.map Except.ok)) =
        .ok ([] : List RTrade) := by
      have h2 := tradesByTxLoop_append_ok okLists [] []
      simp [hj] at h2
      simp [get_trades_by_tx, h2, tradesByTxLoop]
    simp [process_get_trades_by_tx, hg]
  · intro obs r hr
    cases hg : get_trades_by_tx obs with
    | error e2 => simp [process_get_trades_by_tx, hg] at hr
    | ok ts2 =>
      cases ts2 with
      | nil => simp [process_get_trades_by_tx, hg] at hr
      | cons t ts => exact ⟨t, ts, rfl⟩

/-- Witness for C5 at concrete inputs: a timeout on the second orderbook after
a successful first orderbook yields NotYetIndexed; an RPC failure yields
Internal; two orderbooks with no trades yield NotFound; and a fully successful
run over one trade witnesses that a response implies a non-empty merged
list. -/
theorem c5_trades_by_tx_witness :
    (process_get_trades_by_tx (fun _ => some "1.5")
        (.ok [Except.ok [sampleTrade],
          .error (RaindexError.tradesIndexingTimeout "0xtxhash1" 5)])
        (fun _ => .ok [sampleOrder]) "0xtxhash1" =
      .error (ApiError.notYetIndexed
        "transaction 0xtxhash1 not yet indexed after 5 attempts")) ∧
    (process_get_trades_by_tx (fun _ => some "1.5")
        (.ok [.error (RaindexError.other "rpc down")])
        (fun _ => .ok [sampleOrder]) "0xtxhash1" =
      .error (ApiError.internal "failed to query trades")) ∧
    (process_get_trades_by_tx (fun _ => some "1.5")
        (.ok [Except.ok [], Except.ok []])
        (fun _ => .ok [sampleOrder]) "0xtxhash1" =
      .error (ApiError.notFound "transaction has no associated trades")) ∧
    (∃ t ts, get_trades_by_tx (.ok [Except.ok [sampleTrade]]) =
      .ok (t :: ts)) := by
  refine ⟨?_, ?_, ?_, ?_⟩
  · have h := c5_trades_by_tx (fun _ => some "1.5")
      (fun _ => .ok [sampleOrder]) "0xtxhash1" [[sampleTrade]] [] []
      "0xtxhash1" 5 (RaindexError.other "rpc down") "cfg"
    exact h.1
  · have h := c5_trades_by_tx (fun _ => some "1.5")
      (fun _ => .ok [sampleOrder]) "0xtxhash1" [] [] [] "0xtxhash1" 5
      (RaindexError.other "rpc down") "cfg"
    exact h.2.1 rfl
  · have h := c5_trades_by_tx (fun _ => some "1.5")
      (fun _ => .ok [sampleOrder]) "0xtxhash1" [] [[], []] [] "0xtxhash1" 5
      (RaindexError.other "rpc down") "cfg"
    exact h.2.2.2.1 rfl
  · have h := c5_trades_by_tx (fun _ => some "1.5")
      (fun _ => .ok [sampleOrder]) "0xtxhash1" [] [] [] "0xtxhash1" 5
      (RaindexError.other "rpc down") "cfg"
    refine h.2.2.2.2 (.ok [Except.ok [sampleTrade]])
      { tx_hash := "0xtxhash1"
        block_number := 10
        timestamp := 20
        sender := "0xsender1"
        trades := [{ order_hash := "0xorderhash1"
                     order_owner := "0xowner1"
                     request := { input_token := sampleTokenA.address
                                  output_token := sampleTokenB.address
                                  maximum_input := "3"
                                  maximum_io_ratio := "1.5" }
                     result := { input_amount := "3"
                                 output_amount := "-2"
                                 actual_io_ratio := "1.5" } }]
        totals := { total_input_amount := "1.5"
                    total_output_amount := "1.5"
                    average_io_ratio := "1.5" } } ?_
    norm_num [process_get_trades_by_tx, get_trades_by_tx, tradesByTxLoop,
      toU64, dedupFirst, buildOrderCache, mkTradeEntries, mkTradeEntry,
      cacheOwner, floatDiv, sampleTrade, sampleOrder, sampleTokenA,
      sampleTokenB]
    all_goals omega

/-- Claim C7: the engine-error mapping at the swap layer. The two liquidity
errors map to NotFound, the five parameter-shape errors map to BadRequest
carrying the Display rendering, and every other engine error maps to Internal
with the fixed generic message, independent of the error and of its Display
rendering (nothing of the original error is echoed). -/
theorem c7_map_raindex_error (toStr toStr2 : RaindexError → String)
    (d s1 s2 hsh m m2 : String) (n : Nat) :
    map_raindex_error toStr RaindexError.noLiquidity =
      ApiError.notFound "no liquidity found for this pair" ∧
    map_raindex_error toStr (RaindexError.insufficientLiquidity d) =
      ApiError.notFound "no liquidity found for this pair" ∧
    map_raindex_error toStr RaindexError.sameTokenPair =
      ApiError.badRequest (toStr RaindexError.sameTokenPair) ∧
    map_raindex_error toStr RaindexError.nonPositiveAmount =
      ApiError.badRequest (toStr RaindexError.nonPositiveAmount) ∧
    map_raindex_error toStr RaindexError.negativePriceCap =
      ApiError.badRequest (toStr RaindexError.negativePriceCap) ∧
    map_raindex_error toStr (RaindexError.fromHexError s1) =
      ApiError.badRequest (toStr (RaindexError.fromHexError s1)) ∧
    map_raindex_error toStr (RaindexError.floatError s2) =
      ApiError.badRequest (toStr (RaindexError.floatError s2)) ∧
    map_raindex_error toStr (RaindexError.other m) =
      ApiError.internal "failed to generate calldata" ∧
    map_raindex_error toStr (RaindexError.tradesIndexingTimeout hsh n) =
      ApiError.internal "failed to generate calldata" ∧
    map_raindex_error toStr (RaindexError.other m) =
      map_raindex_error toStr2 (RaindexError.other m2) :=
  ⟨rfl, rfl, rfl, rfl, rfl, rfl, rfl, rfl, rfl, rfl⟩

/-- Claim C6: swap quote. No matching active orders, or no take candidates
built from them, is NotFound; with a parseable output amount and a non-empty
simulation the response carries the formatted sum of leg inputs as
estimatedInput and the formatted quotient of total input by total output as
estimatedIoRatio; and a quote can succeed even when the simulated total output
falls short of the requested amount (a partial quote), witnessed by a
candidate with 30 units of liquidity against a requested 100. -/
theorem c6_swap_quote {O : Type} (parse : String → Option ℚ)
    (fmt : ℚ → Option String) (req : SwapQuoteRequest)
    (candR : Except ApiError (List TakeOrderCandidate))
    (o : O) (os : List O) (c : TakeOrderCandidate)
    (cs : List TakeOrderCandidate) (target : ℚ) (fIn fRatio : String) :
    (process_swap_quote parse fmt
        (⟨Except.ok ([] : List O), candR⟩ : SwapDS O) req =
      .error (ApiError.notFound "no liquidity found for this pair")) ∧
    (process_swap_quote parse fmt ⟨.ok (o :: os), .ok []⟩ req =
      .error (ApiError.notFound "no valid quotes available")) ∧
    (∀ legs, legs = (simulate_buy_over_candidates (c :: cs) target).legs →
      parse req.output_amount = some target →
      legs ≠ [] →
      (legs.map SimLeg.output).sum ≠ 0 →
      fmt ((legs.map SimLeg.input).sum) = some fIn →
      fmt ((legs.map SimLeg.input).sum / (legs.map SimLeg.output).sum) =
        some fRatio →
      process_swap_quote parse fmt ⟨.ok (o :: os), .ok (c :: cs)⟩ req =
        .ok { input_token := req.input_token
              output_token := req.output_token
              output_amount := req.output_amount
              estimated_input := fIn
              estimated_io_ratio := fRatio }) ∧
    (∃ r, process_swap_quote (fun _ => some 100) (fun _ => some "60")
        (⟨Except.ok [()], Except.ok [⟨30, 2⟩]⟩ : SwapDS Unit)
        { input_token := "i", output_token := "o", output_amount := "100" } =
        .ok r ∧
      (simulate_buy_over_candidates [⟨30, 2⟩] 100).total_output < 100) := by
  refine ⟨rfl, rfl, ?_, ?_⟩
  · intro legs hdef hparse hne hden hfi hfr
    subst hdef
    simp only [simulate_buy_over_candidates] at hne hden hfi hfr
    simp only [process_swap_quote, hparse, simulate_buy_over_candidates,
      List.isEmpty_cons, Bool.false_eq_true, if_false, floatDiv,
      List.isEmpty_iff, hne, hden, hfi, hfr]
  · refine ⟨{ input_token := "i", output_token := "o", output_amount := "100"
              estimated_input := "60", estimated_io_ratio := "60" }, ?_, ?_⟩
    · norm_num [process_swap_quote, simulate_buy_over_candidates, sortByRatio,
        insertByRatio, greedyLegs, floatDiv, min_def]
    · norm_num [simulate_buy_over_candidates, sortByRatio, insertByRatio,
        greedyLegs, min_def]

/-- Witness for C6 at a concrete input, matching the valid-quote scenario of
the spec: one candidate with max output 1000 at ratio 1.5 and a requested
output of 100 produce estimated input 150 at blended ratio 1.5. -/
theorem c6_swap_quote_witness :
    process_swap_quote (fun _ => some 100)
        (fun q => some (if q = 150 then "150" else "1.5"))
        (⟨Except.ok [()], Except.ok [⟨1000, 3 / 2⟩]⟩ : SwapDS Unit)
        { input_token := "USDC"
          output_token := "WETH"
          output_amount := "100" } =
      .ok { input_token := "USDC"
            output_token := "WETH"
            output_amount := "100"
            estimated_input := "150"
            estimated_io_ratio := "1.5" } := by
  have h := (c6_swap_quote (fun _ => some 100)
      (fun q => some (if q = 150 then "150" else "1.5"))
      { input_token := "USDC"
        output_token := "WETH"
        output_amount := "100" }
      (Except.ok []) () [] ⟨1000, 3 / 2⟩ [] 100 "150" "1.5").2.2.1
      (simulate_buy_over_candidates [⟨1000, 3 / 2⟩] 100).legs rfl rfl ?_ ?_
      ?_ ?_
  · exact h
  · norm_num [simulate_buy_over_candidates, sortByRatio, insertByRatio,
      greedyLegs, min_def]
  · norm_num [simulate_buy_over_candidates, sortByRatio, insertByRatio,
      greedyLegs, min_def]
  · norm_num [simulate_buy_over_candidates, sortByRatio, insertByRatio,
      greedyLegs, min_def]
  · norm_num [simulate_buy_over_candidates, sortByRatio, insertByRatio,
      greedyLegs, min_def]

/-- Claim C8: cancel order. When the hash resolves to at least one order, the
response is a single transaction to the orderbook of that order carrying the
remove calldata with zero value, the withdraw count equals the number of
vaults with positive parsed balance walking inputs first then outputs, and the
returned tokens are exactly those vaults in that order; an unresolved hash is
NotFound. -/
theorem c8_cancel_order (parseNum : String → Option ℚ) (order : ROrder)
    (rest : List ROrder) (calldata : Calldata)
    (quotesR : Except ApiError (List RQuote))
    (tradesR : Except ApiError (List RTrade)) :
    (process_cancel_order parseNum
        ⟨.ok (order :: rest), quotesR, tradesR, .ok calldata⟩ =
      .ok { transactions := [{ to_ := order.orderbook
                               data := calldata
                               value := 0 }]
            summary := { vaults_to_withdraw :=
                           (order.inputs ++ order.outputs).countP
                             (vaultBalancePositive parseNum)
                         tokens_returned :=
                           ((order.inputs ++ order.outputs).filter
                             (vaultBalancePositive parseNum)).map
                             toTokenReturn } }) ∧
    (process_cancel_order parseNum ⟨.ok [], quotesR, tradesR, .ok calldata⟩ =
      .error (ApiError.notFound "order not found")) := by
  constructor
  · simp [process_cancel_order, List.countP_eq_length_filter]
  · rfl

/-- Counterexample to claim C9 as stated: the claim asserts that both
get-order variants fall back to the literal dash for the io ratio when the
quote fetch fails. In the single-file variant (`src/routes/order.rs`), a
failed quote fetch produces the empty string — `get_order_io_ratio` returns
`String::new()` on error and `unwrap_or_default()` on missing data — so the
order detail carries "" and not "-". -/
theorem c9_io_ratio_counterexample :
    (process_get_order_single
        ⟨.ok [sampleOrder], .error (ApiError.internal "quote fetch failed"),
         .error (ApiError.internal "trade fetch failed"),
         .ok "0xdead"⟩).map OrderDetail.io_ratio = Except.ok "" ∧
    ("" : String) ≠ "-" := by
  constructor
  · rfl
  · decide

/-- Claim C9, amended: both get-order variants are soft — a failed or empty
quote fetch and a failed trade fetch never fail the request — but their
io-ratio fallbacks differ: the module variant
(`src/routes/order/get_order.rs`) yields the literal dash while the
single-file variant (`src/routes/order.rs`) yields the empty string; both
yield an empty trades list on a trade-fetch failure. -/
theorem c9_get_order_soft_fallback (ds : OrderDS) (order : ROrder)
    (rest : List ROrder) (vi vo : Vault) (ti to2 : List Vault)
    (hOrders : ds.ordersByHash = .ok (order :: rest))
    (hIn : order.inputs = vi :: ti) (hOut : order.outputs = vo :: to2)
    (hQuote : quoteDataOf ds.quotesResult = none)
    (te : ApiError) (hTrades : ds.tradesResult = .error te) :
    (process_get_order_module ds).map OrderDetail.io_ratio =
      Except.ok "-" ∧
    (process_get_order_module ds).map
      (fun d => d.order_details.io_ratio) = Except.ok "-" ∧
    (process_get_order_module ds).map OrderDetail.trades = Except.ok [] ∧
    (process_get_order_single ds).map OrderDetail.io_ratio = Except.ok "" ∧
    (process_get_order_single ds).map
      (fun d => d.order_details.io_ratio) = Except.ok "" ∧
    (process_get_order_single ds).map OrderDetail.trades = Except.ok [] := by
  have hmodRatio :
      (((match ds.quotesResult with
          | .ok q => q
          | .error _ => ([] : List RQuote)).head?.bind
            RQuote.data).map RQuoteData.formatted_ratio).getD "-" = "-" := by
    cases hq : ds.quotesResult with
    | ok qs =>
      have : quoteDataOf (.ok qs) = none := hq ▸ hQuote
      simp only [quoteDataOf] at this
      simp [this]
    | error e => simp
  have hsingleRatio : get_order_io_ratio ds.quotesResult = "" := by
    cases hq : ds.quotesResult with
    | ok qs =>
      have : quoteDataOf (.ok qs) = none := hq ▸ hQuote
      simp only [quoteDataOf] at this
      simp [get_order_io_ratio, this]
    | error e => simp [get_order_io_ratio]
  refine ⟨?_, ?_, ?_, ?_, ?_, ?_⟩ <;>
    simp only [process_get_order_module, process_get_order_single, hOrders,
      hTrades, hmodRatio, hsingleRatio, get_order_trades_single,
      build_order_detail, hIn, hOut, Except.map, List.map_nil]

/-- Witness for C9 at a concrete input: on the sample order with a failed
quote fetch and a failed trade fetch, the module variant answers with the dash
and the single-file variant with the empty string, both with no trades. -/
theorem c9_get_order_soft_fallback_witness :
    (process_get_order_module
        ⟨.ok [sampleOrder], .error (ApiError.internal "quote fetch failed"),
         .error (ApiError.internal "trade fetch failed"),
         .ok "0xdead"⟩).map OrderDetail.io_ratio = Except.ok "-" ∧
    (process_get_order_single
        ⟨.ok [sampleOrder], .error (ApiError.internal "quote fetch failed"),
         .error (ApiError.internal "trade fetch failed"),
         .ok "0xdead"⟩).map OrderDetail.io_ratio = Except.ok "" := by
  have h := c9_get_order_soft_fallback
    ⟨.ok [sampleOrder], .error (ApiError.internal "quote fetch failed"),
     .error (ApiError.internal "trade fetch failed"), .ok "0xdead"⟩
    sampleOrder [] sampleVaultIn sampleVaultOut [] [] rfl rfl rfl rfl
    (ApiError.internal "trade fetch failed") rfl
  exact ⟨h.1, h.2.2.2.1⟩

/-- Claim C10: every successful calldata response has value zero and exactly
one of the two shapes — ready (no approvals, data is the take-orders calldata
of the engine result) or approval (empty data, exactly one approval whose
spender equals the `to` field) — and an engine result carrying neither an
approval stub nor a take-orders payload is Internal. -/
theorem c10_calldata_shapes (toStr : RaindexError → String)
    (fmt : ℚ → Option String) (res : TakeOrdersCalldataResult) :
    (∀ r, get_calldata toStr fmt (.ok res) = .ok r →
      r.value = 0 ∧
      ((r.approvals = [] ∧ ∃ ti, res.take_orders_info = some ti ∧
          res.approval_info = none ∧ r.data = ti.calldata) ∨
        (r.data = "" ∧ ∃ a, r.approvals = [a] ∧ a.spender = r.to_)) ∧
      ¬(r.approvals = [] ∧ ∃ a, r.approvals = [a])) ∧
    (res.approval_info = none → res.take_orders_info = none →
      get_calldata toStr fmt (.ok res) =
        .error (ApiError.internal "unexpected calldata result state")) := by
  constructor
  · intro r hr
    match hai : res.approval_info with
    | some ai =>
      simp only [get_calldata, hai] at hr
      cases hr
      refine ⟨rfl, Or.inr ⟨rfl, _, rfl, rfl⟩, ?_⟩
      rintro ⟨h1, a, h2⟩
      rw [h1] at h2
      cases h2
    | none =>
      match hti : res.take_orders_info with
      | some ti =>
        simp only [get_calldata, hai, hti] at hr
        match hf : fmt ti.expected_sell with
        | none => rw [hf] at hr; cases hr
        | some es =>
          rw [hf] at hr
          cases hr
          refine ⟨rfl, Or.inl ⟨rfl, ti, rfl, rfl, rfl⟩, ?_⟩
          rintro ⟨h1, a, h2⟩
          rw [h1] at h2
          cases h2
      | none =>
        simp only [get_calldata, hai, hti] at hr
        cases hr
  · intro hai hti
    simp only [get_calldata, hai, hti]

/-- Witness for C10 at concrete inputs: an empty engine result is Internal;
an approval-stub result yields a response with zero value, empty calldata, and
a single approval whose spender is the `to` field; a ready result yields a
response with zero value, no approvals, and the take-orders calldata. -/
theorem c10_calldata_shapes_witness :
    (get_calldata (fun _ => "e") (fun _ => some "1")
        (.ok { approval_info := none, take_orders_info := none }) =
      .error (ApiError.internal "unexpected calldata result state")) ∧
    ((get_calldata (fun _ => "e") (fun _ => some "1")
        (.ok { approval_info := some { spender := "0xspender"
                                       token := "0xtoken"
                                       formatted_amount := "5"
                                       calldata := "0xapprove" }
               take_orders_info := none })).map
        (fun r => (r.value, r.data, r.approvals.map Approval.spender,
          r.to_)) =
      Except.ok (0, "", ["0xspender"], "0xspender")) ∧
    ((get_calldata (fun _ => "e") (fun _ => some "1")
        (.ok { approval_info := none
               take_orders_info := some { orderbook := "0xob"
                                          calldata := "0xtake"
                                          expected_sell := 5 } })).map
        (fun r => (r.value, r.data, r.approvals)) =
      Except.ok (0, "0xtake", [])) := by
  refine ⟨?_, ?_, ?_⟩
  · exact (c10_calldata_shapes (fun _ => "e") (fun _ => some "1")
      { approval_info := none, take_orders_info := none }).2 rfl rfl
  · have h := (c10_calldata_shapes (fun _ => "e") (fun _ => some "1")
      { approval_info := some { spender := "0xspender"
                                token := "0xtoken"
                                formatted_amount := "5"
                                calldata := "0xapprove" }
        take_orders_info := none }).1
      { to_ := "0xspender"
        data := ""
        value := 0
        estimated_input := "5"
        approvals := [{ token := "0xtoken"
                        spender := "0xspender"
                        amount := "5"
                        symbol := ""
                        approval_data := "0xapprove" }] } rfl
    exact h.1 ▸ rfl
  · have h := (c10_calldata_shapes (fun _ => "e") (fun _ => some "1")
      { approval_info := none
        take_orders_info := some { orderbook := "0xob"
                                   calldata := "0xtake"
                                   expected_sell := 5 } }).1
      { to_ := "0xob"
        data := "0xtake"
        value := 0
        estimated_input := "1"
        approvals := [] } rfl
    exact h.1 ▸ rfl

end St0x
